import Mathlib

/-!
# AudioPlayerPlugin: transport state machine of `PluginProcessor.cpp`

A shallow embedding of the transport controller found in
`src/AudioPlayerPlugin/Source/PluginProcessor.cpp`
(`changeListenerCallback`, `changeState`, `loadFile`, `processBlock`,
constructor and destructor), together with a small model of the playback
source it commands, and theorems about the state machine.
-/

namespace AudioPlayerPlugin

/-! ## Data model -/

/-- Modelled from the spec: the `TransportState` enumeration, declared in
`PluginProcessor.h` (not among the sources); the six values are the ones the
`switch` of `changeState` lists. -/
inductive TransportState
  | Stopped
  | Starting
  | Playing
  | Pausing
  | Paused
  | Stopping
  deriving DecidableEq, Repr

/-- Commands the processor issues to its `transportSource`. Positions and
sample rates are kept as natural numbers (sample index, Hz): the processor only
ever passes the constant `0.0` and the reader's own rate. -/
inductive SourceCommand
  | start
  | stop
  | setPosition (newPosition : Nat)
  | setSource (newSource : Option Nat) (readAheadSize : Nat) (sourceSampleRate : Nat)
  deriving DecidableEq, Repr

/-- Modelled from the spec: the Playback Source (`juce::AudioTransportSource`,
a library class outside the sources). It records the source it currently reads
from (by object identity), whether it is running, its stream position, and
every command it has received, oldest first. -/
structure AudioTransportSource where
  source : Option Nat
  playing : Bool
  position : Nat
  commands : List SourceCommand
  deriving DecidableEq, Repr

namespace AudioTransportSource

/-- Modelled from the spec: `start()` begins advancing the position on
subsequent block pulls. -/
def start (t : AudioTransportSource) : AudioTransportSource :=
  { t with playing := true, commands := t.commands ++ [SourceCommand.start] }

/-- Modelled from the spec: `stop()` halts advancing the position and does not
reset it. -/
def stop (t : AudioTransportSource) : AudioTransportSource :=
  { t with playing := false, commands := t.commands ++ [SourceCommand.stop] }

/-- Modelled from the spec: `setPosition` repositions the stream. -/
def setPosition (newPosition : Nat) (t : AudioTransportSource) : AudioTransportSource :=
  { t with position := newPosition,
           commands := t.commands ++ [SourceCommand.setPosition newPosition] }

/-- Modelled from the spec: `setSource` swaps in a new reader source; a null
source detaches playback. -/
def setSource (newSource : Option Nat) (readAheadSize sourceSampleRate : Nat)
    (t : AudioTransportSource) : AudioTransportSource :=
  { t with source := newSource,
           commands := t.commands ++
             [SourceCommand.setSource newSource readAheadSize sourceSampleRate] }

/-- Modelled from the spec: `isPlaying()` reflects whether the source is
running. -/
def isPlaying (t : AudioTransportSource) : Bool := t.playing

/-- Modelled from the spec: `nextBlock` (`getNextAudioBlock`). While running it
advances the position by the number of samples written; when the stream ends it
stops running. While not running it leaves the position alone. How many samples
the reader supplied and whether the stream ended are inputs of the model. -/
def getNextAudioBlock (samplesWritten : Nat) (endOfStream : Bool)
    (t : AudioTransportSource) : AudioTransportSource :=
  if t.playing then
    { t with position := t.position + samplesWritten, playing := !endOfStream }
  else t

end AudioTransportSource

/-- A decoded-audio reader as returned by the format registry; only its sample
rate is read by the processor. -/
structure AudioFormatReader where
  sampleRate : Nat
  deriving DecidableEq, Repr

/-- An `AudioFormatReaderSource` built over a reader it owns; `id` is the
identity of the object. -/
structure AudioFormatReaderSource where
  id : Nat
  reader : AudioFormatReader
  deriving DecidableEq, Repr

/-- The members of `AudioPlayerPluginAudioProcessor` that the transport code
reads or writes. -/
structure AudioPlayerPluginAudioProcessor where
  state : TransportState
  transportSource : AudioTransportSource
  readerSource : Option AudioFormatReaderSource
  deriving DecidableEq, Repr

/-- The broadcaster handed to `changeListenerCallback`: the processor's own
`transportSource`, or some other object. -/
inductive ChangeBroadcaster
  | transportSource
  | other (tag : Nat)
  deriving DecidableEq, Repr

open TransportState

/-- The constructor: `state(Stopped)`, a default transport source (no source,
not running, position 0, nothing commanded yet) and a null `readerSource`. -/
def constructed : AudioPlayerPluginAudioProcessor :=
  { state := Stopped,
    transportSource := { source := none, playing := false, position := 0, commands := [] },
    readerSource := none }

/-! ## Operations -/

/-- `changeState` (lines 196-224). -/
def changeState (newState : TransportState)
    (p : AudioPlayerPluginAudioProcessor) : AudioPlayerPluginAudioProcessor :=
  if p.state ≠ newState then
    let p1 := { p with state := newState }
    match p1.state with
    | Stopped => { p1 with transportSource := p1.transportSource.setPosition 0 }
    | Starting => { p1 with transportSource := p1.transportSource.start }
    | Playing => p1
    | Pausing => { p1 with transportSource := p1.transportSource.stop }
    | Paused => p1
    | Stopping => { p1 with transportSource := p1.transportSource.stop }
  else p

/-- `changeListenerCallback` (lines 183-194). -/
def changeListenerCallback (source : ChangeBroadcaster)
    (p : AudioPlayerPluginAudioProcessor) : AudioPlayerPluginAudioProcessor :=
  if source = ChangeBroadcaster.transportSource then
    if p.transportSource.isPlaying then
      changeState Playing p
    else if p.state = Stopping ∨ p.state = Playing then
      changeState Stopped p
    else if Pausing = p.state then
      changeState Paused p
    else p
  else p

/-- `processBlock` (lines 133-156): after clearing the spare output channels it
pulls the next block from the transport source. Buffer contents are not
modelled. -/
def processBlock (samplesWritten : Nat) (endOfStream : Bool)
    (p : AudioPlayerPluginAudioProcessor) : AudioPlayerPluginAudioProcessor :=
  { p with transportSource := p.transportSource.getNextAudioBlock samplesWritten endOfStream }

/-- The side effect the transition table of the specification attaches to
entering a state. -/
def tableSideEffect : TransportState → List SourceCommand
  | Stopped => [SourceCommand.setPosition 0]
  | Starting => [SourceCommand.start]
  | Playing => []
  | Pausing => [SourceCommand.stop]
  | Paused => []
  | Stopping => [SourceCommand.stop]

/-! ## Loading a file and object lifetimes -/

/-- A file handed to `loadFile`, identified by its path. -/
abbrev File := String

/-- Bookkeeping of object lifetimes: the identity the next constructed object
receives, and the identities of the objects already destroyed. -/
structure Heap where
  fresh : Nat
  released : List Nat
  deriving DecidableEq, Repr

/-- The processor together with the lifetime bookkeeping of the reader sources
it builds. -/
structure World where
  processor : AudioPlayerPluginAudioProcessor
  heap : Heap
  deriving DecidableEq, Repr

/-- The world right after the constructor has run. -/
def constructedWorld : World :=
  { processor := constructed, heap := { fresh := 0, released := [] } }

/-- Line 231: `std::make_unique<juce::AudioFormatReaderSource>(reader, true)`
builds a new reader source object. -/
def makeReaderSource (reader : AudioFormatReader) (w : World) :
    AudioFormatReaderSource × World :=
  ({ id := w.heap.fresh, reader := reader },
   { w with heap := { w.heap with fresh := w.heap.fresh + 1 } })

/-- The call `transportSource.setSource (...)` made by the processor. -/
def handToTransport (newSource : Option Nat) (readAheadSize sourceSampleRate : Nat)
    (w : World) : World :=
  { w with processor :=
      { w.processor with
        transportSource :=
          w.processor.transportSource.setSource newSource readAheadSize sourceSampleRate } }

/-- The `readerSource.reset (...)` of a `std::unique_ptr`: the member takes the
new pointer and the object owned before, if any, is destroyed. -/
def resetReaderSource (newSource : Option AudioFormatReaderSource) (w : World) : World :=
  { processor := { w.processor with readerSource := newSource },
    heap :=
      match w.processor.readerSource with
      | none => w.heap
      | some old => { w.heap with released := old.id :: w.heap.released } }

/-- `loadFile` (lines 226-235). The function is `void`: the result component is
`Unit`. The format registry is the parameter `createReaderFor`. -/
def loadFile (createReaderFor : File → Option AudioFormatReader) (file : File)
    (w : World) : Unit × World :=
  match createReaderFor file with
  | some reader =>
    let made := makeReaderSource reader w
    let w2 := handToTransport (some made.1.id) 0 reader.sampleRate made.2
    ((), resetReaderSource (some made.1) w2)
  | none => ((), w)

/-- The worlds `loadFile` passes through, one per statement of its body
(lines 231, 232, 233); empty when no reader is produced. -/
def loadFileTrace (createReaderFor : File → Option AudioFormatReader) (file : File)
    (w : World) : List World :=
  match createReaderFor file with
  | some reader =>
    let made := makeReaderSource reader w
    let w2 := handToTransport (some made.1.id) 0 reader.sampleRate made.2
    [made.2, w2, resetReaderSource (some made.1) w2]
  | none => []

/-- The worlds the destructor passes through (lines 29-32): its body calls
`transportSource.setSource (nullptr)`; only after the body are the members
destroyed, the `readerSource` pointer releasing the object it owns. -/
def destructorTrace (w : World) : List World :=
  let w1 := handToTransport none 0 0 w
  [w1, resetReaderSource none w1]

/-- Every world visited by a life of the processor: a sequence of `loadFile`
calls, one per listed file, followed by the destructor. -/
def lifetimeTrace (createReaderFor : File → Option AudioFormatReader) :
    List File → World → List World
  | [], w => w :: destructorTrace w
  | file :: rest, w =>
    w :: (loadFileTrace createReaderFor file w ++
      lifetimeTrace createReaderFor rest (loadFile createReaderFor file w).2)

/-- The transport's current source, if any, is an object that has not been
released. -/
def SourceAlive (w : World) : Prop :=
  ∀ i, w.processor.transportSource.source = some i → i ∉ w.heap.released

/-- A format registry used in examples: it opens `track.wav` only. -/
def exampleRegistry : File → Option AudioFormatReader :=
  fun file => if file = "track.wav" then some { sampleRate := 44100 } else none

/-! ## Runs of the transport -/

/-- The three transport requests of the control surface. -/
inductive Request
  | play
  | pause
  | stop
  deriving DecidableEq, Repr

/-- Modelled from the spec: the state each request asks `changeState` to enter
(play: `Starting`, pause: `Pausing`, stop: `Stopping`); the callers of
`changeState` are not among the sources. -/
def Request.target : Request → TransportState
  | Request.play => Starting
  | Request.pause => Pausing
  | Request.stop => Stopping

/-- What can happen to a processor: a transport request (a `changeState` call),
a change notification, or a render call. -/
inductive Event
  | request (r : Request)
  | sourceChanged (source : ChangeBroadcaster)
  | render (samplesWritten : Nat) (endOfStream : Bool)
  deriving DecidableEq, Repr

/-- The effect of one event. -/
def Event.apply : Event → AudioPlayerPluginAudioProcessor → AudioPlayerPluginAudioProcessor
  | Event.request r, p => changeState r.target p
  | Event.sourceChanged source, p => changeListenerCallback source p
  | Event.render samplesWritten endOfStream, p => processBlock samplesWritten endOfStream p

/-- The processor after a sequence of events. -/
def run : List Event → AudioPlayerPluginAudioProcessor → AudioPlayerPluginAudioProcessor
  | [], p => p
  | e :: rest, p => run rest (e.apply p)

/-- The nine rows of the transition table of the specification, as a relation
between the state before and the state after. -/
def tableTransition : TransportState → TransportState → Bool
  | Stopped, Starting => true
  | Paused, Starting => true
  | Starting, Playing => true
  | Playing, Pausing => true
  | Pausing, Paused => true
  | Playing, Stopping => true
  | Starting, Stopping => true
  | Stopping, Stopped => true
  | Playing, Stopped => true
  | _, _ => false

/-- The states in which the transition table has a row for a request. -/
def tableHasRow : Request → TransportState → Bool
  | Request.play, Stopped => true
  | Request.play, Paused => true
  | Request.pause, Playing => true
  | Request.stop, Playing => true
  | Request.stop, Starting => true
  | _, _ => false

/-- Modelled from the spec: `requestPlay()`, a caller of `changeState` that is
not among the sources. If the state is `Stopped` or `Paused` it transitions to
`Starting`; otherwise it does nothing. -/
def requestPlay (p : AudioPlayerPluginAudioProcessor) : AudioPlayerPluginAudioProcessor :=
  if p.state = Stopped ∨ p.state = Paused then changeState Starting p else p

/-- Modelled from the spec: `requestPause()`, a caller of `changeState` that is
not among the sources. If the state is `Playing` it transitions to `Pausing`;
otherwise it does nothing. -/
def requestPause (p : AudioPlayerPluginAudioProcessor) : AudioPlayerPluginAudioProcessor :=
  if p.state = Playing then changeState Pausing p else p

/-- Modelled from the spec: `requestStop()`, a caller of `changeState` that is
not among the sources. From `Playing` or `Starting` it transitions to
`Stopping`; otherwise it does nothing. -/
def requestStop (p : AudioPlayerPluginAudioProcessor) : AudioPlayerPluginAudioProcessor :=
  if p.state = Playing ∨ p.state = Starting then changeState Stopping p else p

/-- The control-surface operation serving a request. -/
def Request.handle : Request → AudioPlayerPluginAudioProcessor → AudioPlayerPluginAudioProcessor
  | Request.play, p => requestPlay p
  | Request.pause, p => requestPause p
  | Request.stop, p => requestStop p

/-- The effect of one event when requests arrive through the control surface
(`requestPlay`, `requestPause`, `requestStop`). -/
def Event.applyControl :
    Event → AudioPlayerPluginAudioProcessor → AudioPlayerPluginAudioProcessor
  | Event.request r, p => r.handle p
  | Event.sourceChanged source, p => changeListenerCallback source p
  | Event.render samplesWritten endOfStream, p => processBlock samplesWritten endOfStream p

/-- The triggers named in the transition table of the specification. -/
inductive Trigger
  | requestPlay
  | requestPause
  | requestStop
  | sourceRunning
  | sourceStopped
  deriving DecidableEq, Repr

/-- The trigger an event amounts to in a given processor, if any: a request is
its own trigger, a change notification of the transport source is "source
running" or "source stopped" according to what the source reports, and a
notification of another broadcaster or a render call is no trigger. -/
def Event.trigger : Event → AudioPlayerPluginAudioProcessor → Option Trigger
  | Event.request Request.play, _ => some Trigger.requestPlay
  | Event.request Request.pause, _ => some Trigger.requestPause
  | Event.request Request.stop, _ => some Trigger.requestStop
  | Event.sourceChanged ChangeBroadcaster.transportSource, p =>
    if p.transportSource.isPlaying then some Trigger.sourceRunning
    else some Trigger.sourceStopped
  | Event.sourceChanged (ChangeBroadcaster.other _), _ => none
  | Event.render _ _, _ => none

/-- The nine rows of the transition table of the specification, with their
triggers: from, trigger, to. -/
def tableRow : TransportState → Option Trigger → TransportState → Bool
  | Stopped, some Trigger.requestPlay, Starting => true
  | Paused, some Trigger.requestPlay, Starting => true
  | Starting, some Trigger.sourceRunning, Playing => true
  | Playing, some Trigger.requestPause, Pausing => true
  | Pausing, some Trigger.sourceStopped, Paused => true
  | Playing, some Trigger.requestStop, Stopping => true
  | Starting, some Trigger.requestStop, Stopping => true
  | Stopping, some Trigger.sourceStopped, Stopped => true
  | Playing, some Trigger.sourceStopped, Stopped => true
  | _, _, _ => false

/-- One step keeps the transport state, or changes it by a row of the table
whose trigger is the event that happened. -/
def stepFollowsTable (e : Event) (p : AudioPlayerPluginAudioProcessor) : Bool :=
  decide ((e.applyControl p).state = p.state)
    || (tableRow p.state (e.trigger p) (e.applyControl p).state
        && tableTransition p.state (e.applyControl p).state)

/-- Every step of the run keeps the state or follows a row of the table. -/
def stepsFollowTable : List Event → AudioPlayerPluginAudioProcessor → Bool
  | [], _ => true
  | e :: rest, p => stepFollowsTable e p && stepsFollowTable rest (e.applyControl p)

/-- The states visited by a run, the starting one first. -/
def statesVisited : List Event → AudioPlayerPluginAudioProcessor → List TransportState
  | [], p => [p.state]
  | e :: rest, p => p.state :: statesVisited rest (e.applyControl p)

/-- An example run through the control surface that takes all nine rows of the
table, with requests that are ignored in between. -/
def exampleAllRows : List Event :=
  [Event.request Request.pause,
   Event.request Request.play,
   Event.request Request.play,
   Event.request Request.stop,
   Event.sourceChanged ChangeBroadcaster.transportSource,
   Event.request Request.play,
   Event.sourceChanged ChangeBroadcaster.transportSource,
   Event.request Request.pause,
   Event.sourceChanged ChangeBroadcaster.transportSource,
   Event.request Request.play,
   Event.sourceChanged ChangeBroadcaster.transportSource,
   Event.request Request.stop,
   Event.sourceChanged ChangeBroadcaster.transportSource,
   Event.request Request.play,
   Event.sourceChanged ChangeBroadcaster.transportSource,
   Event.render 256 true,
   Event.sourceChanged ChangeBroadcaster.transportSource]

/-- An example processor: playing a loaded file, 480 samples into the stream. -/
def examplePlaying : AudioPlayerPluginAudioProcessor :=
  { state := Playing,
    transportSource :=
      { source := some 0, playing := true, position := 480,
        commands := [SourceCommand.setSource (some 0) 0 44100, SourceCommand.start] },
    readerSource := some { id := 0, reader := { sampleRate := 44100 } } }

/-- An example run: play, the source confirms, render to the end of the stream,
the source reports it stopped. -/
def examplePlayToEnd : List Event :=
  [Event.request Request.play,
   Event.sourceChanged ChangeBroadcaster.transportSource,
   Event.render 512 false,
   Event.render 100 true,
   Event.sourceChanged ChangeBroadcaster.transportSource]

/-- In state `Stopped` the source is not running and sits at position 0. -/
def StoppedAtOrigin (p : AudioPlayerPluginAudioProcessor) : Prop :=
  p.state = Stopped → p.transportSource.position = 0 ∧ p.transportSource.playing = false

/-- A running source is only found in states `Starting` and `Playing`. -/
def RunningOnlyWhenStarted (p : AudioPlayerPluginAudioProcessor) : Prop :=
  p.transportSource.playing = true → p.state = Starting ∨ p.state = Playing

/-- Lifetime bookkeeping is consistent: released objects and the owned reader
source were all built earlier, and the transport's source is alive. -/
def WellFormed (w : World) : Prop :=
  (∀ i ∈ w.heap.released, i < w.heap.fresh)
    ∧ (∀ r, w.processor.readerSource = some r → r.id < w.heap.fresh)
    ∧ SourceAlive w

/-- An example life: a load that fails, two loads that succeed. -/
def exampleFiles : List File := ["missing.wav", "track.wav", "track.wav"]

/-- The world of the example life in which the second reader source has been
handed to the transport and the first one has just been released. -/
def exampleSwapped : World :=
  { processor :=
      { state := Stopped,
        transportSource :=
          { source := some 1, playing := false, position := 0,
            commands := [SourceCommand.setSource (some 0) 0 44100,
                         SourceCommand.setSource (some 1) 0 44100] },
        readerSource := some { id := 1, reader := { sampleRate := 44100 } } },
    heap := { fresh := 2, released := [0] } }

/-! ## Theorems -/

/-- C1: with the transport source as broadcaster, `changeListenerCallback` ends
in `Playing` if the source reports running; otherwise in `Stopped` if the state
was `Stopping` or `Playing`; otherwise in `Paused` if it was `Pausing`;
otherwise (the state being `Stopped`, `Starting` or `Paused`) the state is the
one it started in. -/
theorem changeListenerCallback_end_state (p : AudioPlayerPluginAudioProcessor) :
    (changeListenerCallback ChangeBroadcaster.transportSource p).state =
        (if p.transportSource.isPlaying = true then Playing
         else if p.state = Stopping ∨ p.state = Playing then Stopped
         else if p.state = Pausing then Paused
         else p.state)
      ∧ ((p.transportSource.isPlaying = false ∧ p.state ≠ Stopping ∧ p.state ≠ Playing
            ∧ p.state ≠ Pausing)
          ↔ (p.transportSource.isPlaying = false
              ∧ (p.state = Stopped ∨ p.state = Starting ∨ p.state = Paused))) := by
  obtain ⟨s, ⟨src, pl, pos, cmds⟩, rs⟩ := p
  cases s <;> cases pl <;>
    simp [changeListenerCallback, changeState, AudioTransportSource.isPlaying]

/-- C2: when the target state differs from the current one, `changeState` sets
the state to the target and issues to the source exactly the side effect the
table attaches to entering it (`start()` for `Starting`, `stop()` for `Pausing`
and `Stopping`, `setPosition(0)` for `Stopped`, nothing for `Playing` and
`Paused`). -/
theorem changeState_enters_target (t : TransportState)
    (p : AudioPlayerPluginAudioProcessor) (h : p.state ≠ t) :
    (changeState t p).state = t
      ∧ (changeState t p).transportSource.commands
          = p.transportSource.commands ++ tableSideEffect t := by
  obtain ⟨s, ⟨src, pl, pos, cmds⟩, rs⟩ := p
  simp only at h
  cases t <;>
    simp [changeState, h, tableSideEffect, AudioTransportSource.setPosition,
      AudioTransportSource.start, AudioTransportSource.stop]

/-- Witness for C2: entering `Starting` from the constructed processor. -/
theorem changeState_enters_target_witness :
    constructed.state ≠ Starting
      ∧ (changeState Starting constructed).state = Starting
      ∧ (changeState Starting constructed).transportSource.commands
          = constructed.transportSource.commands ++ tableSideEffect Starting :=
  ⟨by decide, changeState_enters_target Starting constructed (by decide)⟩

/-- C3: `changeState` towards the state the processor is already in changes
nothing: no assignment, no command. Hence, from any processor in state
`Stopped`, two consecutive `changeState(Starting)` calls end where one call
ends, in state `Starting`, and the pair issues exactly one `start()`. -/
theorem changeState_same_state_noop (p : AudioPlayerPluginAudioProcessor) :
    changeState p.state p = p
      ∧ changeState Starting (changeState Starting { p with state := Stopped })
          = changeState Starting { p with state := Stopped }
      ∧ (changeState Starting (changeState Starting { p with state := Stopped })).state
          = Starting
      ∧ (changeState Starting
            (changeState Starting { p with state := Stopped })).transportSource.commands
          = p.transportSource.commands ++ [SourceCommand.start] := by
  obtain ⟨s, ⟨src, pl, pos, cmds⟩, rs⟩ := p
  simp [changeState, AudioTransportSource.start]

/-- C5: from state `Playing` at any stream position, `changeState(Pausing)`
followed by the change notification of the (now not running) source takes the
state to `Pausing` and then to `Paused`; the only command issued on the way is
`stop()`, and the stream position in `Paused` is the one it started with. -/
theorem pause_retains_position (p : AudioPlayerPluginAudioProcessor)
    (h : p.state = Playing) :
    (changeState Pausing p).state = Pausing
      ∧ (changeState Pausing p).transportSource.isPlaying = false
      ∧ (changeListenerCallback ChangeBroadcaster.transportSource
            (changeState Pausing p)).state = Paused
      ∧ (changeListenerCallback ChangeBroadcaster.transportSource
            (changeState Pausing p)).transportSource.commands
          = p.transportSource.commands ++ [SourceCommand.stop]
      ∧ (changeListenerCallback ChangeBroadcaster.transportSource
            (changeState Pausing p)).transportSource.position
          = p.transportSource.position := by
  obtain ⟨s, ⟨src, pl, pos, cmds⟩, rs⟩ := p
  simp only at h
  subst h
  simp [changeListenerCallback, changeState, AudioTransportSource.isPlaying,
    AudioTransportSource.stop]

/-- Witness for C5: a processor playing 480 samples into the stream. -/
theorem pause_retains_position_witness :
    examplePlaying.state = Playing
      ∧ (changeListenerCallback ChangeBroadcaster.transportSource
            (changeState Pausing examplePlaying)).state = Paused
      ∧ (changeListenerCallback ChangeBroadcaster.transportSource
            (changeState Pausing examplePlaying)).transportSource.position = 480 :=
  ⟨rfl, (pause_retains_position examplePlaying rfl).2.2.1,
    (pause_retains_position examplePlaying rfl).2.2.2.2⟩

/-- C6, as stated, fails: a pause request in `Stopped`, a state for which the
table has no pause row, is not ignored; `changeState(Pausing)` moves the
constructed processor to `Pausing` and issues `stop()`. -/
theorem pause_request_in_stopped_not_ignored :
    constructed.state = Stopped
      ∧ tableHasRow Request.pause constructed.state = false
      ∧ (changeState Request.pause.target constructed).state = Pausing
      ∧ (changeState Request.pause.target constructed).transportSource.commands
          = [SourceCommand.stop] := by
  decide

/-- C6, amended: a request is ignored exactly when the state it asks for is the
current state (play in `Starting`, pause in `Pausing`, stop in `Stopping`); in
every other state, with or without a table row, `changeState` enters the
requested state and issues its side effect. -/
theorem request_ignored_iff_target_current (r : Request)
    (p : AudioPlayerPluginAudioProcessor) :
    (changeState r.target p = p ↔ p.state = r.target)
      ∧ ((changeState r.target p).state = r.target)
      ∧ ((changeState r.target p).transportSource.commands
          = if p.state = r.target then p.transportSource.commands
            else p.transportSource.commands ++ tableSideEffect r.target) := by
  obtain ⟨s, ⟨src, pl, pos, cmds⟩, rs⟩ := p
  cases r <;> cases s <;>
    simp [changeState, Request.target, tableSideEffect, AudioTransportSource.start,
      AudioTransportSource.stop]

/-! ### Invariants of runs -/

theorem constructed_stoppedAtOrigin : StoppedAtOrigin constructed := by
  intro _
  exact ⟨rfl, rfl⟩

theorem apply_stoppedAtOrigin (e : Event) (p : AudioPlayerPluginAudioProcessor)
    (h : StoppedAtOrigin p) : StoppedAtOrigin (e.apply p) := by
  obtain ⟨s, ⟨src, pl, pos, cmds⟩, rs⟩ := p
  unfold StoppedAtOrigin at h ⊢
  cases e with
  | request r =>
    cases r <;> cases s <;>
      simp_all [Event.apply, changeState, Request.target, AudioTransportSource.start,
        AudioTransportSource.stop]
  | sourceChanged b =>
    cases b <;> cases s <;> cases pl <;>
      simp_all [Event.apply, changeListenerCallback, changeState,
        AudioTransportSource.isPlaying, AudioTransportSource.setPosition]
  | render n eos =>
    cases s <;> cases pl <;>
      simp_all [Event.apply, processBlock, AudioTransportSource.getNextAudioBlock]

theorem run_stoppedAtOrigin (events : List Event) :
    ∀ p : AudioPlayerPluginAudioProcessor, StoppedAtOrigin p → StoppedAtOrigin (run events p) := by
  induction events with
  | nil => intro p h; exact h
  | cons e rest ih => intro p h; exact ih (e.apply p) (apply_stoppedAtOrigin e p h)

theorem applyControl_runningOnlyWhenStarted (e : Event)
    (p : AudioPlayerPluginAudioProcessor) (h : RunningOnlyWhenStarted p) :
    RunningOnlyWhenStarted (e.applyControl p) ∧ stepFollowsTable e p = true := by
  obtain ⟨s, ⟨src, pl, pos, cmds⟩, rs⟩ := p
  unfold RunningOnlyWhenStarted at h ⊢
  cases e with
  | request r =>
    cases r <;> cases s <;>
      simp_all [Event.applyControl, Request.handle, requestPlay, requestPause, requestStop,
        changeState, AudioTransportSource.start, AudioTransportSource.stop,
        stepFollowsTable, Event.trigger, tableRow, tableTransition]
  | sourceChanged b =>
    cases b <;> cases s <;> cases pl <;>
      simp_all [Event.applyControl, changeListenerCallback, changeState,
        AudioTransportSource.isPlaying, AudioTransportSource.setPosition,
        stepFollowsTable, Event.trigger, tableRow, tableTransition]
  | render n eos =>
    cases s <;> cases pl <;>
      simp_all [Event.applyControl, processBlock, AudioTransportSource.getNextAudioBlock,
        stepFollowsTable]

theorem stepsFollowTable_of_runningOnlyWhenStarted (events : List Event) :
    ∀ p : AudioPlayerPluginAudioProcessor, RunningOnlyWhenStarted p →
      stepsFollowTable events p = true := by
  induction events with
  | nil => intro p _; rfl
  | cons e rest ih =>
    intro p h
    obtain ⟨hinv, hstep⟩ := applyControl_runningOnlyWhenStarted e p h
    simp only [stepsFollowTable, Bool.and_eq_true]
    exact ⟨hstep, ih (e.applyControl p) hinv⟩

/-- C4: in every configuration reached from the constructed processor by any
sequence of play/pause/stop requests (`changeState` calls), change
notifications and render calls, if the transport state is `Stopped` then the
stream position of the source is 0. -/
theorem stopped_implies_position_zero (events : List Event)
    (h : (run events constructed).state = Stopped) :
    (run events constructed).transportSource.position = 0 :=
  (run_stoppedAtOrigin events constructed constructed_stoppedAtOrigin h).1

/-- Witness for C4: playing a stream to its end returns to `Stopped` at
position 0. -/
theorem stopped_implies_position_zero_witness :
    (run examplePlayToEnd constructed).state = Stopped
      ∧ (run examplePlayToEnd constructed).transportSource.position = 0 :=
  ⟨by decide, stopped_implies_position_zero examplePlayToEnd (by decide)⟩

/-- C7: starting from the constructed processor (state `Stopped`), along every
sequence of play/pause/stop requests (served by `requestPlay`, `requestPause`,
`requestStop`), change notifications and render calls, each step either keeps
the transport state or changes it by one of the nine transitions of the table,
triggered as the table says: `Stopped` to `Starting` and `Paused` to `Starting`
(play), `Starting` to `Playing` (source running), `Playing` to `Pausing`
(pause), `Pausing` to `Paused` (source stopped), `Playing` to `Stopping` and
`Starting` to `Stopping` (stop), `Stopping` to `Stopped` and `Playing` to
`Stopped` (source stopped). The example run takes every one of the nine. -/
theorem steps_follow_table (events : List Event) :
    stepsFollowTable events constructed = true
      ∧ stepsFollowTable exampleAllRows constructed = true
      ∧ statesVisited exampleAllRows constructed =
          [Stopped, Stopped, Starting, Starting, Stopping, Stopped, Starting, Playing,
           Pausing, Paused, Starting, Playing, Stopping, Stopped, Starting, Playing,
           Playing, Stopped] :=
  ⟨stepsFollowTable_of_runningOnlyWhenStarted events constructed (by intro hp; cases hp),
    by decide, by decide⟩

/-! ### Loading files -/

theorem loadFile_eq_trace_last (createReaderFor : File → Option AudioFormatReader)
    (file : File) (w : World) :
    (loadFile createReaderFor file w).2 = (loadFileTrace createReaderFor file w).getLastD w := by
  unfold loadFile loadFileTrace
  cases createReaderFor file <;> simp

theorem constructedWorld_wellFormed : WellFormed constructedWorld := by
  refine ⟨?_, ?_, ?_⟩
  · intro i hi; simp [constructedWorld] at hi
  · intro r hr; simp [constructedWorld, constructed] at hr
  · intro i hi; simp [constructedWorld, constructed] at hi

theorem loadFile_wellFormed (createReaderFor : File → Option AudioFormatReader)
    (file : File) (w : World) (h : WellFormed w) :
    WellFormed (loadFile createReaderFor file w).2 := by
  obtain ⟨hrel, hown, halive⟩ := h
  unfold loadFile
  cases hr : createReaderFor file with
  | none => exact ⟨hrel, hown, halive⟩
  | some reader =>
    obtain ⟨⟨s, ts, rs⟩, ⟨fresh, released⟩⟩ := w
    simp only at hrel hown
    have hfresh : fresh ∉ released := fun hmem => Nat.lt_irrefl _ (hrel _ hmem)
    cases rs with
    | none =>
      refine ⟨?_, ?_, ?_⟩
      · intro i hi
        simp only [resetReaderSource, handToTransport, makeReaderSource] at hi ⊢
        exact Nat.lt_succ_of_lt (hrel i hi)
      · intro r hr2
        simp only [resetReaderSource, handToTransport, makeReaderSource,
          Option.some.injEq] at hr2 ⊢
        subst hr2
        exact Nat.lt_succ_self _
      · intro i hi
        simp only [resetReaderSource, handToTransport, makeReaderSource,
          AudioTransportSource.setSource, Option.some.injEq] at hi ⊢
        subst hi
        exact hfresh
    | some old =>
      have hlt : old.id < fresh := hown old rfl
      refine ⟨?_, ?_, ?_⟩
      · intro i hi
        simp only [resetReaderSource, handToTransport, makeReaderSource,
          List.mem_cons] at hi ⊢
        rcases hi with hi | hi
        · subst hi; exact Nat.lt_succ_of_lt hlt
        · exact Nat.lt_succ_of_lt (hrel i hi)
      · intro r hr2
        simp only [resetReaderSource, handToTransport, makeReaderSource,
          Option.some.injEq] at hr2 ⊢
        subst hr2
        exact Nat.lt_succ_self _
      · intro i hi
        simp only [resetReaderSource, handToTransport, makeReaderSource,
          AudioTransportSource.setSource, Option.some.injEq] at hi ⊢
        subst hi
        simp only [List.mem_cons, not_or]
        exact ⟨Nat.ne_of_gt hlt, hfresh⟩

theorem loadFileTrace_alive (createReaderFor : File → Option AudioFormatReader)
    (file : File) (w : World) (h : WellFormed w) :
    ∀ v ∈ loadFileTrace createReaderFor file w, SourceAlive v := by
  have hfinal := loadFile_wellFormed createReaderFor file w h
  obtain ⟨hrel, hown, halive⟩ := h
  unfold loadFile at hfinal
  unfold loadFileTrace
  cases hr : createReaderFor file with
  | none => intro v hv; simp at hv
  | some reader =>
    rw [hr] at hfinal
    have hfresh : w.heap.fresh ∉ w.heap.released := fun hmem =>
      Nat.lt_irrefl _ (hrel _ hmem)
    intro v hv
    simp only [List.mem_cons, List.mem_singleton, List.not_mem_nil, or_false] at hv
    rcases hv with hv | hv | hv
    · subst hv
      intro i hi
      exact halive i (by simpa [makeReaderSource] using hi)
    · subst hv
      intro i hi
      simp [handToTransport, makeReaderSource, AudioTransportSource.setSource] at hi
      subst hi
      simpa [handToTransport, makeReaderSource] using hfresh
    · subst hv
      exact hfinal.2.2

theorem destructorTrace_alive (w : World) : ∀ v ∈ destructorTrace w, SourceAlive v := by
  intro v hv
  simp only [destructorTrace, List.mem_cons, List.mem_singleton, List.not_mem_nil,
    or_false] at hv
  rcases hv with hv | hv <;> subst hv <;> intro i hi <;>
    simp [resetReaderSource, handToTransport, AudioTransportSource.setSource] at hi

theorem lifetimeTrace_alive (createReaderFor : File → Option AudioFormatReader)
    (files : List File) :
    ∀ w : World, WellFormed w → ∀ v ∈ lifetimeTrace createReaderFor files w, SourceAlive v := by
  induction files with
  | nil =>
    intro w h v hv
    simp only [lifetimeTrace, List.mem_cons] at hv
    rcases hv with hv | hv
    · subst hv; exact h.2.2
    · exact destructorTrace_alive w v hv
  | cons file rest ih =>
    intro w h v hv
    simp only [lifetimeTrace, List.mem_cons, List.mem_append] at hv
    rcases hv with hv | hv | hv
    · subst hv; exact h.2.2
    · exact loadFileTrace_alive createReaderFor file w h v hv
    · exact ih _ (loadFile_wellFormed createReaderFor file w h) v hv

/-- C8: `loadFile` never changes the transport state. When the registry yields
no reader it changes nothing at all. When it yields a reader, the processor
afterwards differs only in that the transport's current source and the owned
reader source are the newly built reader source (the transport having received
the one `setSource` call that installs it). -/
theorem loadFile_frame (createReaderFor : File → Option AudioFormatReader)
    (file : File) (w : World) :
    (loadFile createReaderFor file w).2.processor.state = w.processor.state
      ∧ (match createReaderFor file with
         | none => (loadFile createReaderFor file w).2 = w
         | some reader =>
           (loadFile createReaderFor file w).2.processor =
             { state := w.processor.state,
               transportSource :=
                 { source := some w.heap.fresh,
                   playing := w.processor.transportSource.playing,
                   position := w.processor.transportSource.position,
                   commands := w.processor.transportSource.commands ++
                     [SourceCommand.setSource (some w.heap.fresh) 0 reader.sampleRate] },
               readerSource := some { id := w.heap.fresh, reader := reader } }) := by
  unfold loadFile
  cases createReaderFor file <;>
    simp [resetReaderSource, handToTransport, makeReaderSource,
      AudioTransportSource.setSource]

/-- C9, as stated, fails: `loadFile` is `void`; what it returns for a file the
registry opens and for a file it does not open is the same, so no reading of
the returned value tells success from failure. -/
theorem loadFile_returns_no_result :
    ¬ ∃ isSuccess : Unit → Bool, ∀ file : File,
        isSuccess (loadFile exampleRegistry file constructedWorld).1
          = (exampleRegistry file).isSome := by
  rintro ⟨isSuccess, h⟩
  have h1 := h "track.wav"
  have h2 := h "missing.wav"
  simp [exampleRegistry] at h1 h2
  rw [h1] at h2
  cases h2

/-- C9, amended: `loadFile` returns nothing to its caller; whether the registry
produced a reader shows only in its effect: the world is left as it was exactly
when no reader was produced, and the owned reader source is a newly built one
exactly when a reader was produced. -/
theorem loadFile_outcome_in_effect (createReaderFor : File → Option AudioFormatReader)
    (file : File) (w : World) :
    (loadFile createReaderFor file w).1 = ()
      ∧ ((loadFile createReaderFor file w).2 = w ↔ createReaderFor file = none)
      ∧ (((loadFile createReaderFor file w).2.processor.readerSource.map
              AudioFormatReaderSource.id = some w.heap.fresh
            ∧ (loadFile createReaderFor file w).2.heap.fresh = w.heap.fresh + 1)
          ↔ (createReaderFor file).isSome = true) := by
  obtain ⟨⟨s, ts, rs⟩, ⟨fresh, released⟩⟩ := w
  unfold loadFile
  cases createReaderFor file <;> cases rs <;>
    simp [resetReaderSource, handToTransport, makeReaderSource,
      AudioTransportSource.setSource]

/-- C10: across every sequence of `loadFile` calls followed by the destructor,
in every world passed through, statement by statement, the transport's current
source is not a released reader source: `loadFile` installs the new source with
`setSource` before the old one is released, and the destructor detaches the
transport before the owned source is released. -/
theorem transport_source_never_released (createReaderFor : File → Option AudioFormatReader)
    (files : List File) (v : World)
    (h : v ∈ lifetimeTrace createReaderFor files constructedWorld) :
    SourceAlive v :=
  lifetimeTrace_alive createReaderFor files constructedWorld constructedWorld_wellFormed v h

/-- Witness for C10: in the example life, right after the first reader source
has been released the transport already reads from the second. -/
theorem transport_source_never_released_witness :
    exampleSwapped ∈ lifetimeTrace exampleRegistry exampleFiles constructedWorld
      ∧ SourceAlive exampleSwapped :=
  ⟨by decide, transport_source_never_released exampleRegistry exampleFiles exampleSwapped
    (by decide)⟩

end AudioPlayerPlugin
